import Mathlib

/-!
Verification of the learning-hub API of the Terra Farm application
(`src/app/api/learning-hub/route.ts`).

The TypeScript module is embedded shallowly:

* The in-memory cache (`learningCache : Map<string, {data, timestamp}>`) is a
  function `String → Option (CVal × Int)`; `Date.now()` is passed explicitly
  as an integer parameter `now` (milliseconds), and the current UTC date
  string produced by `new Date().toISOString().split('T')[0]` is passed
  explicitly as a string parameter `today`.
* JavaScript's 32-bit signed left shift (used in the user hash) is modelled
  by `toInt32`; since every accumulator value is an exact integer well below
  2^53, exact `Int` arithmetic coincides with JS number arithmetic.
* The single random draw `Math.floor(Math.random() * 40)` in the
  `submit-assessment` branch is modelled by an oracle parameter `r : Nat`;
  its possible values are exactly `r < 40`.
* Values stored in the cache are typed `any` in TypeScript; they are
  modelled by the sum type `CVal`.  The projections `CVal.modulesOf` /
  `CVal.progressOf` model JS property access on the untyped cached value;
  their non-matching default cases correspond to `undefined` access in JS
  and are unreachable for caches written only by this module, because the
  key prefixes `modules_`, `user_progress_` and `assessments_` determine
  the variant stored.
* `async`/`await`, logging and the `try`/`catch` wrappers are dropped: none
  of the wrapped computations can throw in the model.
-/

/-- JavaScript `||` applied to a possibly-absent string (absent and the empty
string are falsy and select the default). -/
def jsOrS (v : Option String) (dflt : String) : String :=
  match v with
  | none => dflt
  | some s => if s = "" then dflt else s

/-- JavaScript truthiness of a possibly-absent string parameter. -/
def jsTruthy (v : Option String) : Bool :=
  match v with
  | none => false
  | some s => !(s == "")

/-- JavaScript `ToInt32`: reduce an exact integer into `[-2^31, 2^31)`. -/
def toInt32 (n : Int) : Int :=
  let m := n % 4294967296
  if m < 2147483648 then m else m - 4294967296

/-- One step of the user-hash fold from `getUserProgressFromDatabase`:
`((a << 5) - a) + b.charCodeAt(0)`.  `a << 5` is JS's 32-bit signed shift,
i.e. `toInt32 (a * 32)` on exact integers. -/
def jsHashStep (a : Int) (c : Nat) : Int :=
  (toInt32 (a * 32) - a) + c

/-- The hash fold over the sequence of character codes, starting from 0. -/
def jsHash (codes : List Nat) : Int :=
  codes.foldl jsHashStep 0

/-- Character codes of a string as used by `userId.split('')` followed by
`charCodeAt(0)` (UTF-16 code units; for the basic plane these are the
Unicode scalar values Lean's `Char` carries). -/
def strCodes (s : String) : List Nat :=
  s.data.map Char.toNat

/-- The integer hash of the user id from which every profile field is
derived (`userHash` in `getUserProgressFromDatabase`). -/
def userHash (userId : String) : Int :=
  jsHash (strCodes userId)

/-- One step of the polynomial string hash the specification describes:
`acc = acc*31 + charCode`.  Stated from the spec's words, for comparison
with the implementation's `jsHashStep`. -/
def polyStep (a : Int) (c : Nat) : Int :=
  a * 31 + c

/-- The standard polynomial string hash `acc = acc*31 + charCode` starting
from 0, as the specification describes the hash.  Stated from the spec's
words, for comparison with the implementation's `jsHash`. -/
def polyHash (codes : List Nat) : Int :=
  codes.foldl polyStep 0

/-- A learning module of the static catalog (interface `LearningModule`).
`difficulty` is kept as a string because the handler filters by string
equality against an arbitrary query parameter. -/
structure LearningModule where
  id : String
  title : String
  description : String
  duration : String
  xp : Nat
  completed : Bool
  difficulty : String
  category : String
deriving DecidableEq

/-- An achievement entry (id, title, description, date string). -/
structure Achievement where
  id : String
  title : String
  description : String
  date : String
deriving DecidableEq

/-- The derived user progress record (interface `UserProgress`; the optional
`currentModule` field is never set by the code and is omitted). -/
structure UserProgress where
  userId : String
  level : Nat
  currentXP : Nat
  totalXP : Nat
  nextLevel : String
  achievements : List Achievement
  completedModules : List String
  streakDays : Nat
  totalStudyTime : Nat
deriving DecidableEq

/-- An assessment catalog entry. -/
structure Assessment where
  id : String
  title : String
  description : String
  questions : Nat
  timeLimit : Nat
  difficulty : String
  xpReward : Nat
deriving DecidableEq

/-- The level-name table of `getLevelName`. -/
def levelNames : List String :=
  ["Novice Farmer", "Farm Analyst", "Data Specialist",
   "Sustainability Expert", "Master Navigator"]

/-- `getLevelName`: `levels[Math.min(level - 1, levels.length - 1)] ||
'Master Navigator'`.  A negative index reads `undefined` in JS and falls
back to the default; all table entries are non-empty so `||` only
replaces `undefined`. -/
def getLevelName (level : Int) : String :=
  let i := min (level - 1) 4
  if i < 0 then "Master Navigator"
  else (levelNames.get? i.toNat).getD "Master Navigator"

/-- The fixed 3-entry achievement catalog of `getUserAchievements`; each
entry's `date` is `new Date().toISOString().split('T')[0]`, the current
UTC date `today`. -/
def allAchievements (today : String) : List Achievement :=
  [⟨"first-steps", "First Steps", "Completed your first learning module", today⟩,
   ⟨"data-explorer", "Data Explorer", "Analyzed your first NASA dataset", today⟩,
   ⟨"quick-learner", "Quick Learner", "Completed 3 modules in one day", today⟩]

/-- `getUserAchievements`: the first `|hash| % 3 + 1` catalog entries. -/
def getUserAchievements (userId : String) (today : String) : List Achievement :=
  let h := (userHash userId).natAbs
  (allAchievements today).take (h % 3 + 1)

/-- `getUserCompletedModules`: the first `|hash| % 3` entries of a fixed
3-item module-id list. -/
def getUserCompletedModules (userId : String) : List String :=
  let h := (userHash userId).natAbs
  (["nasa-data-intro", "satellite-imagery", "ndvi-analysis"]).take (h % 3)

/-- `getUserProgressFromDatabase`: derives the whole profile from
`|userHash userId|`.  `today` is the current UTC date used for the
achievement dates. -/
def getUserProgressFromDatabase (userId : String) (today : String) : UserProgress :=
  let h := (userHash userId).natAbs
  let level := max 1 (h % 5 + 1)
  let currentXP := h % 1000 + 500
  let baseXP := level * 1000
  { userId := userId
    level := level
    currentXP := currentXP
    totalXP := baseXP
    nextLevel := getLevelName ((level : Int) + 1)
    achievements := getUserAchievements userId today
    completedModules := getUserCompletedModules userId
    streakDays := h % 30 + 1
    totalStudyTime := h % 500 + 100 }

/-- Everything in a profile except the achievements' date fields, used to
state which part of the derivation is independent of the current date. -/
def stripAchievementDates (p : UserProgress) :
    String × Nat × Nat × Nat × String ×
    List (String × String × String) × List String × Nat × Nat :=
  (p.userId, p.level, p.currentXP, p.totalXP, p.nextLevel,
   p.achievements.map (fun a => (a.id, a.title, a.description)),
   p.completedModules, p.streakDays, p.totalStudyTime)

/-- The 5 seeded modules of `generateDynamicModules`. -/
def baseModules : List LearningModule :=
  [⟨"nasa-data-intro", "NASA Earth Observation Fundamentals",
    "Learn to interpret satellite data for agricultural applications",
    "20 min", 150, false, "beginner", "fundamentals"⟩,
   ⟨"satellite-imagery", "Satellite Imagery Analysis",
    "Master MODIS and Landsat data interpretation",
    "25 min", 200, false, "intermediate", "analysis"⟩,
   ⟨"ndvi-analysis", "NDVI and Vegetation Health",
    "Monitor crop health using vegetation indices",
    "30 min", 250, false, "intermediate", "monitoring"⟩,
   ⟨"soil-moisture", "SMAP Soil Moisture Data",
    "Optimize irrigation using soil moisture measurements",
    "35 min", 300, false, "advanced", "precision-agriculture"⟩,
   ⟨"climate-adaptation", "Climate Change Adaptation",
    "Long-term planning using climate data trends",
    "40 min", 400, false, "advanced", "sustainability"⟩]

/-- `generateDynamicModules(level, userId)`: returns the seeded catalog,
filtered by difficulty when `level` is truthy and not `'all'`.  The
`userId` parameter is accepted and unused, as in the source. -/
def generateDynamicModules (level : Option String) (userId : Option String) :
    List LearningModule :=
  if jsTruthy level && !(level == some "all") then
    baseModules.filter (fun m => m.difficulty == (level.getD ""))
  else
    baseModules

/-- The fixed assessment catalog of `generateDynamicAssessments`. -/
def generateDynamicAssessments (userId : Option String) : List Assessment :=
  [⟨"nasa-fundamentals", "NASA Data Fundamentals",
    "Test your understanding of satellite data applications",
    10, 15, "beginner", 200⟩,
   ⟨"satellite-analysis", "Satellite Data Analysis",
    "Advanced assessment on satellite imagery interpretation",
    15, 25, "intermediate", 350⟩]

/-- The untyped (`any`) values this module stores in `learningCache`. -/
inductive CVal where
  | modules (ms : List LearningModule)
  | progress (p : UserProgress)
  | assessments (catalog : List Assessment)
deriving DecidableEq

/-- JS `.length` read on a cached value this module treats as an array.
For a non-array value the access would be `undefined` in JS; that case is
unreachable for caches written by this module. -/
def CVal.lengthJS : CVal → Nat
  | .modules ms => ms.length
  | .progress _ => 0
  | .assessments catalog => catalog.length

/-- Projection of an untyped cached value to a module list (see header). -/
def CVal.modulesOf : CVal → List LearningModule
  | .modules ms => ms
  | _ => []

/-- Projection of an untyped cached value to a profile (see header). -/
def CVal.progressOf : CVal → UserProgress
  | .progress p => p
  | _ => ⟨"", 1, 0, 0, "", [], [], 0, 0⟩

/-- `CACHE_DURATION = 30 * 60 * 1000` milliseconds. -/
def CACHE_DURATION : Int := 1800000

/-- The `learningCache` map: key to (stored value, insertion timestamp). -/
def Cache : Type := String → Option (CVal × Int)

/-- The empty cache (fresh process state). -/
def emptyCache : Cache := fun _ => none

/-- `getCachedData`: the value iff an entry exists and
`now - timestamp < CACHE_DURATION`; stale entries are not deleted (the
cache state is not touched — the function only reads). -/
def getCachedData (now : Int) (c : Cache) (key : String) : Option CVal :=
  match c key with
  | some (v, ts) => if now - ts < CACHE_DURATION then some v else none
  | none => none

/-- `setCachedData`: insert or overwrite with the current timestamp. -/
def setCachedData (now : Int) (c : Cache) (key : String) (v : CVal) : Cache :=
  fun k => if k = key then some (v, now) else c k

/-- `learningCache.delete`: remove an entry unconditionally. -/
def deleteCached (c : Cache) (key : String) : Cache :=
  fun k => if k = key then none else c k

/-- `fetchLearningModules`: cache lookup under
`modules_${level || 'all'}_${userId || 'guest'}`, filling from
`generateDynamicModules` on a miss. -/
def fetchLearningModules (now : Int) (c : Cache)
    (level : Option String) (userId : Option String) : CVal × Cache :=
  let cacheKey := "modules_" ++ jsOrS level "all" ++ "_" ++ jsOrS userId "guest"
  match getCachedData now c cacheKey with
  | some v => (v, c)
  | none =>
    let ms := generateDynamicModules level userId
    (CVal.modules ms, setCachedData now c cacheKey (CVal.modules ms))

/-- `fetchUserProgress`: cache lookup under `user_progress_${userId}`,
filling from `getUserProgressFromDatabase` on a miss. -/
def fetchUserProgress (now : Int) (c : Cache)
    (userId : String) (today : String) : CVal × Cache :=
  let cacheKey := "user_progress_" ++ userId
  match getCachedData now c cacheKey with
  | some v => (v, c)
  | none =>
    let p := getUserProgressFromDatabase userId today
    (CVal.progress p, setCachedData now c cacheKey (CVal.progress p))

/-- `fetchAssessments`: cache lookup under `assessments_${userId || 'guest'}`,
filling from `generateDynamicAssessments` on a miss. -/
def fetchAssessments (now : Int) (c : Cache) (userId : Option String) :
    CVal × Cache :=
  let cacheKey := "assessments_" ++ jsOrS userId "guest"
  match getCachedData now c cacheKey with
  | some v => (v, c)
  | none =>
    let catalog := generateDynamicAssessments userId
    (CVal.assessments catalog, setCachedData now c cacheKey (CVal.assessments catalog))

/-- `updateModuleProgress`: deletes `user_progress_${userId}` and
`modules_all_${userId}` and reports success (nothing in it can throw). -/
def updateModuleProgress (c : Cache) (userId : String)
    (moduleId : String) (completed : Bool) : Bool × Cache :=
  (true, deleteCached (deleteCached c ("user_progress_" ++ userId))
    ("modules_all_" ++ userId))

/-- `awardXP`: deletes `user_progress_${userId}` and reports success. -/
def awardXP (c : Cache) (userId : String) (xpAmount : Nat) : Bool × Cache :=
  (true, deleteCached c ("user_progress_" ++ userId))

/-- `generatePersonalizedTips`. -/
def generatePersonalizedTips (up : UserProgress) : List String :=
  let tips :=
    ["Great job reaching Level " ++ toString up.level ++ "! Keep up the momentum.",
     "Try applying these concepts to real NASA datasets for better retention."]
  if up.streakDays > 7 then
    tips ++ ["Amazing " ++ toString up.streakDays ++ "-day streak! You\x27re on fire! 🔥"]
  else tips

/-- `getRecommendedModule` (returns `null` never: the last branch returns a
module id). -/
def getRecommendedModule (up : UserProgress) : Option String :=
  if up.completedModules.length = 0 then some "nasa-data-intro"
  else if !(up.completedModules.contains "satellite-imagery") then
    some "satellite-imagery"
  else some "ndvi-analysis"

/-- `getDifficultyLevel`. -/
def getDifficultyLevel (up : UserProgress) : String :=
  if up.level ≥ 3 then "advanced"
  else if up.level ≥ 2 then "intermediate"
  else "beginner"

/-- `getEstimatedTime`: `${20 + (level > 2 ? -5 : +5)} min`. -/
def getEstimatedTime (moduleId : String) (up : UserProgress) : String :=
  let baseTime : Int := 20
  let adjustment : Int := if up.level > 2 then -5 else 5
  toString (baseTime + adjustment) ++ " min"

/-- The personalized content block of `generateModuleContent`. -/
structure ModuleContent where
  personalizedTips : List String
  recommendedNext : Option String
  difficultyAdjustment : String
  estimatedTime : String
deriving DecidableEq

/-- `generateModuleContent`: fetches the user progress (possibly filling the
cache) and builds the personalized content from it. -/
def generateModuleContent (now : Int) (c : Cache)
    (moduleId : String) (userId : String) (today : String) :
    ModuleContent × Cache :=
  let (pv, c1) := fetchUserProgress now c userId today
  let up := pv.progressOf
  ({ personalizedTips := generatePersonalizedTips up
     recommendedNext := getRecommendedModule up
     difficultyAdjustment := getDifficultyLevel up
     estimatedTime := getEstimatedTime moduleId up }, c1)

/-- One row of the mocked leaderboard. -/
structure LBEntry where
  rank : Nat
  name : String
  xp : Nat
  level : String
deriving DecidableEq

/-- The category list returned by the `modules` action. -/
def categoriesList : List String :=
  ["fundamentals", "analysis", "monitoring", "precision-agriculture", "sustainability"]

/-- Responses of the GET handler, one constructor per branch; `errorR`
carries the HTTP status and the `error` string. -/
inductive GResponse where
  | modulesR (modules : CVal) (totalModules : Nat) (categories : List String)
      (cached : Bool)
  | progressR (data : CVal) (cached : Bool)
  | moduleContentR (foundModule : LearningModule) (dynamic : ModuleContent)
      (userProgress : CVal)
  | assessmentsR (assessments : CVal) (userCompletedAssessments : List String)
  | leaderboardR (leaderboard : List LBEntry) (userRank : Nat) (totalUsers : Nat)
  | errorR (status : Nat) (error : String)
deriving DecidableEq

/-- The `cache.cached` field of a successful GET response, when the branch
reports one. -/
def GResponse.cachedFlag : GResponse → Option Bool
  | .modulesR _ _ _ b => some b
  | .progressR _ b => some b
  | _ => none

/-- Query parameters of a GET request. -/
structure GetParams where
  action : Option String
  moduleId : Option String
  userId : Option String
  level : Option String

/-- The GET dispatch after the `userId = searchParams.get('userId') || 'guest'`
normalization. -/
def handleGETCore (now : Int) (today : String) (c : Cache) (userId : String)
    (action : Option String) (moduleId : Option String)
    (levelParam : Option String) : GResponse × Cache :=
  match action with
  | some "modules" =>
    let level := jsOrS levelParam "all"
    let (mv, c1) := fetchLearningModules now c (some level) (some userId)
    (.modulesR mv mv.lengthJS categoriesList false, c1)
  | some "progress" =>
    let (pv, c1) := fetchUserProgress now c userId today
    (.progressR pv false, c1)
  | some "module-content" =>
    if !(jsTruthy moduleId) then (.errorR 400 "Module ID required", c)
    else
      let mid := moduleId.getD ""
      let (mv, c1) := fetchLearningModules now c (some "all") (some userId)
      match (mv.modulesOf).find? (fun m => m.id == mid) with
      | none => (.errorR 404 "Module not found", c1)
      | some fm =>
        let (dyn, c2) := generateModuleContent now c1 mid userId today
        let (pv, c3) := fetchUserProgress now c2 userId today
        (.moduleContentR fm dyn pv, c3)
  | some "assessments" =>
    let (av, c1) := fetchAssessments now c (some userId)
    (.assessmentsR av [], c1)
  | some "leaderboard" =>
    let (pv, c1) := fetchUserProgress now c userId today
    let cu := pv.progressOf
    let lb : List LBEntry :=
      [⟨1, "NASA Explorer", 5420, "Sustainability Expert"⟩,
       ⟨2, "Farm Innovator", 4890, "Sustainability Expert"⟩,
       ⟨3, "You", cu.currentXP, getLevelName (cu.level : Int)⟩,
       ⟨4, "Earth Observer", 1180, "Farm Analyst"⟩,
       ⟨5, "Crop Master", 980, "Farm Analyst"⟩]
    (.leaderboardR lb 3 1247, c1)
  | _ => (.errorR 400 "Invalid action", c)

/-- The `GET` route handler: normalizes `userId` then dispatches. -/
def handleGET (now : Int) (today : String) (c : Cache) (p : GetParams) :
    GResponse × Cache :=
  handleGETCore now today c (jsOrS p.userId "guest") p.action p.moduleId p.level

/-- Responses of the POST handler. -/
inductive PResponse where
  | startedR (message : String) (xpAwarded : Nat)
  | completedR (message : String) (xpAwarded : Nat) (newXP : Nat)
  | assessmentR (score : Nat) (xpEarned : Nat) (passed : Bool) (newTotalXP : Nat)
  | errorR (status : Nat) (error : String)
deriving DecidableEq

/-- The `error` field of a POST response, when present. -/
def PResponse.errorMsg : PResponse → Option String
  | .errorR _ e => some e
  | _ => none

/-- The JSON body of a POST request.  `answers` records only the truthiness
of `body.answers` (the code never reads its content). -/
structure PostBody where
  action : Option String
  moduleId : Option String
  assessmentId : Option String
  answers : Bool

/-- The POST dispatch after `userId` normalization.  `r` is the oracle for
`Math.floor(Math.random() * 40)` in the `submit-assessment` branch. -/
def handlePOSTCore (now : Int) (today : String) (r : Nat) (c : Cache)
    (userId : String) (body : PostBody) : PResponse × Cache :=
  match body.action with
  | some "start-module" =>
    if !(jsTruthy body.moduleId) then (.errorR 400 "Module ID required", c)
    else
      let (success, c1) := updateModuleProgress c userId (body.moduleId.getD "") false
      let c2 := if success then (awardXP c1 userId 50).2 else c1
      (.startedR "Module started successfully" 50, c2)
  | some "complete-module" =>
    if !(jsTruthy body.moduleId) then (.errorR 400 "Module ID required", c)
    else
      let (completed, c1) := updateModuleProgress c userId (body.moduleId.getD "") true
      let c2 := if completed then (awardXP c1 userId 150).2 else c1
      let (pv, c3) := fetchUserProgress now c2 userId today
      (.completedR "Module completed successfully" 150 pv.progressOf.currentXP, c3)
  | some "submit-assessment" =>
    if !(jsTruthy body.assessmentId) || !body.answers then
      (.errorR 400 "Assessment ID and answers required", c)
    else
      let mockScore := r + 60
      let xpEarned := if mockScore > 70 then 200 else 100
      let c1 := (awardXP c userId xpEarned).2
      let (pv, c2) := fetchUserProgress now c1 userId today
      (.assessmentR mockScore xpEarned (decide (mockScore ≥ 70))
        pv.progressOf.currentXP, c2)
  | _ => (.errorR 400 "Invalid POST action", c)

/-- The `POST` route handler: normalizes `userId` then dispatches. -/
def handlePOST (now : Int) (today : String) (r : Nat) (c : Cache)
    (userIdParam : Option String) (body : PostBody) : PResponse × Cache :=
  handlePOSTCore now today r c (jsOrS userIdParam "guest") body

/-! ## Helper lemmas -/

/-- `jsOrS` with a non-empty default never returns the empty string. -/
theorem jsOrS_ne_empty (v : Option String) (d : String) (hd : d ≠ "") :
    jsOrS v d ≠ "" := by
  cases v with
  | none => simpa [jsOrS] using hd
  | some s =>
    by_cases hs : s = "" <;> simp [jsOrS, hs, hd]

/-- `jsOrS` leaves a non-empty string unchanged. -/
theorem jsOrS_some_of_ne (s d : String) (hs : s ≠ "") : jsOrS (some s) d = s := by
  simp [jsOrS, hs]

/-- Appending to a fixed string is injective. -/
theorem string_append_right_inj (a v u : String)
    (h : a ++ v = a ++ u) : v = u := by
  have h2 := congrArg String.data h
  simp only [String.data_append] at h2
  exact String.ext (List.append_cancel_left h2)

/-- The `user_progress_` keys of distinct users are distinct. -/
theorem progressKey_inj (v u : String) (hv : v ≠ u) :
    "user_progress_" ++ v ≠ "user_progress_" ++ u := fun h =>
  hv (string_append_right_inj _ _ _ h)

/-- A `user_progress_` key never equals a `modules_all_` key. -/
theorem progressKey_ne_modulesKey (v u : String) :
    "user_progress_" ++ v ≠ "modules_all_" ++ u := by
  intro h
  have h2 := congrArg String.data h
  simp only [String.data_append] at h2
  simp at h2

/-! ## Claim theorems -/

/-- C2 (corrected, counterexample): the derived profile is not a pure
function of the userId alone — the achievement `date` fields hold the
current UTC date, so two derivations for the same user on different dates
(possible within one process run) differ. -/
theorem deriveProfile_not_date_free :
    getUserProgressFromDatabase "u" "2026-10-11"
      ≠ getUserProgressFromDatabase "u" "2026-10-12" := by decide

/-- C2 (corrected, amended): for the same `userId`, every profile field
except the achievements' `date` fields is identical across derivations,
whatever the current date is at each call; the profile is a deterministic
function of `(userId, current UTC date)`. -/
theorem deriveProfile_deterministic_up_to_dates (u d1 d2 : String) :
    stripAchievementDates (getUserProgressFromDatabase u d1)
      = stripAchievementDates (getUserProgressFromDatabase u d2) := by
  simp [stripAchievementDates, getUserProgressFromDatabase, getUserAchievements,
    allAchievements, List.map_take]

/-- C3 (confirmed): for every userId string (including the empty string)
and any current date, the derived profile has `level ∈ [1,5]`,
`currentXP ∈ [500,1499]`, `streakDays ∈ [1,30]`, and
`totalXP = level * 1000`. -/
theorem deriveProfile_bounds (u d : String) :
    1 ≤ (getUserProgressFromDatabase u d).level
    ∧ (getUserProgressFromDatabase u d).level ≤ 5
    ∧ 500 ≤ (getUserProgressFromDatabase u d).currentXP
    ∧ (getUserProgressFromDatabase u d).currentXP ≤ 1499
    ∧ 1 ≤ (getUserProgressFromDatabase u d).streakDays
    ∧ (getUserProgressFromDatabase u d).streakDays ≤ 30
    ∧ (getUserProgressFromDatabase u d).totalXP
        = (getUserProgressFromDatabase u d).level * 1000 := by
  simp [getUserProgressFromDatabase]
  omega

/-- C4 (corrected, counterexample): the implementation's hash is not the
plain polynomial hash `acc = acc*31 + charCode`: JavaScript's `<<` is a
32-bit signed shift, and on the 6-character string `"aaaaaa"` the shift
overflows, so the two hashes disagree. -/
theorem userHash_ne_polyHash_cex :
    userHash "aaaaaa" ≠ polyHash (strCodes "aaaaaa")
    ∧ userHash "aaaaaa" = -1425372064
    ∧ polyHash (strCodes "aaaaaa") = 2869595232 := by decide

/-- Generalized induction for the hash comparison: while every intermediate
accumulator of the `acc*31 + c` fold times 32 stays inside the signed
32-bit range (so `toInt32` is the identity on it), the implementation fold
agrees with the polynomial fold. -/
theorem jsHash_foldl_eq_poly_foldl (s : List Nat) : ∀ (a : Int),
    (∀ n, n < s.length →
      toInt32 ((List.foldl polyStep a (s.take n)) * 32)
        = (List.foldl polyStep a (s.take n)) * 32) →
    List.foldl jsHashStep a s = List.foldl polyStep a s := by
  induction s with
  | nil => intro a _; rfl
  | cons c rest ih =>
    intro a h
    have h0 := h 0 (by simp)
    simp only [List.take_zero, List.foldl_nil] at h0
    have hstep : jsHashStep a c = polyStep a c := by
      simp only [jsHashStep, polyStep, h0]; ring
    simp only [List.foldl_cons, hstep]
    apply ih
    intro n hn
    have hn1 := h (n + 1) (by simpa using Nat.succ_lt_succ hn)
    simpa [List.take_succ_cons, List.foldl_cons] using hn1

/-- C4 (corrected, amended): the hash the profile is derived from equals
the fold `acc = toInt32(acc*32) - acc + charCode`; it coincides with the
polynomial hash `acc = acc*31 + charCode` exactly when no intermediate
accumulator overflows the 32-bit shift, i.e. whenever `toInt32` is the
identity on every prefix accumulator times 32. -/
theorem userHash_eq_polyHash_of_no_overflow (u : String)
    (h : ∀ n, n < (strCodes u).length →
      toInt32 (polyHash ((strCodes u).take n) * 32)
        = polyHash ((strCodes u).take n) * 32) :
    userHash u = polyHash (strCodes u) := by
  unfold userHash jsHash polyHash
  exact jsHash_foldl_eq_poly_foldl (strCodes u) 0 (by simpa [polyHash] using h)

/-- Witness for `userHash_eq_polyHash_of_no_overflow` at the string
`"abc"`. -/
theorem userHash_eq_polyHash_of_no_overflow_witness :
    (∀ n, n < (strCodes "abc").length →
      toInt32 (polyHash ((strCodes "abc").take n) * 32)
        = polyHash ((strCodes "abc").take n) * 32)
    ∧ userHash "abc" = polyHash (strCodes "abc") :=
  ⟨by decide, userHash_eq_polyHash_of_no_overflow "abc" (by decide)⟩

/-- C5 (confirmed): a cache read returns the stored value iff the entry
exists and strictly less than `CACHE_DURATION` has elapsed since it was
stored (the read never mutates the cache — `getCachedData` only reads);
a read of an absent key is `none`; after `setCachedData` the most recently
stored value is returned while fresh, and immediately after a set the read
returns exactly the stored value. -/
theorem cache_ttl_spec (c cNone : Cache) (k : String) (v : CVal)
    (ts now tset tget : Int)
    (hc : c k = some (v, ts)) (hcNone : cNone k = none) :
    getCachedData now c k
        = (if now - ts < CACHE_DURATION then some v else none)
    ∧ getCachedData now cNone k = none
    ∧ getCachedData tget (setCachedData tset c k v) k
        = (if tget - tset < CACHE_DURATION then some v else none)
    ∧ getCachedData tset (setCachedData tset c k v) k = some v := by
  refine ⟨?_, ?_, ?_, ?_⟩
  · simp [getCachedData, hc]
  · simp [getCachedData, hcNone]
  · simp [getCachedData, setCachedData]
  · simp [getCachedData, setCachedData, CACHE_DURATION]

/-- Witness for `cache_ttl_spec` on a concrete one-entry cache. -/
theorem cache_ttl_spec_witness :
    ((setCachedData 0 emptyCache "k1" (CVal.modules [])) "k1"
        = some (CVal.modules [], 0))
    ∧ (emptyCache "k1" = none)
    ∧ (getCachedData 5 (setCachedData 0 emptyCache "k1" (CVal.modules [])) "k1"
        = (if (5 : Int) - 0 < CACHE_DURATION then some (CVal.modules []) else none)
      ∧ getCachedData 5 emptyCache "k1" = none
      ∧ getCachedData 7 (setCachedData 3
          (setCachedData 0 emptyCache "k1" (CVal.modules [])) "k1" (CVal.modules []))
          "k1" = (if (7 : Int) - 3 < CACHE_DURATION then some (CVal.modules []) else none)
      ∧ getCachedData 3 (setCachedData 3
          (setCachedData 0 emptyCache "k1" (CVal.modules [])) "k1" (CVal.modules []))
          "k1" = some (CVal.modules [])) :=
  ⟨by decide, by decide,
    cache_ttl_spec (setCachedData 0 emptyCache "k1" (CVal.modules []))
      emptyCache "k1" (CVal.modules []) 0 5 3 7 (by decide) (by decide)⟩

/-- The module list the claim expects for an effective level value, stated
from the spec's words: `all` yields the full seeded catalog, a recognized
difficulty yields the exact-match filter, anything else the empty list. -/
def claimedModules (eff : String) : List LearningModule :=
  if eff = "all" then baseModules
  else if eff = "beginner" ∨ eff = "intermediate" ∨ eff = "advanced" then
    baseModules.filter (fun m => m.difficulty == eff)
  else []

/-- For every non-empty effective level, the generator produces exactly the
claimed list (for an unrecognized non-empty level the filter is empty). -/
theorem generateDynamicModules_eq_claimed (eff : String) (heff : eff ≠ "")
    (uid : Option String) :
    generateDynamicModules (some eff) uid = claimedModules eff := by
  by_cases hall : eff = "all"
  · subst hall; simp [generateDynamicModules, claimedModules, jsTruthy]
  · have hgen : generateDynamicModules (some eff) uid
        = baseModules.filter (fun m => m.difficulty == eff) := by
      simp [generateDynamicModules, jsTruthy, heff, hall]
    rw [hgen]
    by_cases hb : eff = "beginner" ∨ eff = "intermediate" ∨ eff = "advanced"
    · rw [claimedModules, if_neg hall, if_pos hb]
    · push_neg at hb
      obtain ⟨h1, h2, h3⟩ := hb
      rw [claimedModules, if_neg hall, if_neg (by simp [h1, h2, h3])]
      simp [baseModules, beq_iff_eq, Ne.symm h1, Ne.symm h2, Ne.symm h3]

/-- On a cache miss for its key, `fetchLearningModules` generates the
module list and stores it under the key. -/
theorem fetchLearningModules_miss (now : Int) (c : Cache)
    (level uid : Option String)
    (hmiss : getCachedData now c
      ("modules_" ++ jsOrS level "all" ++ "_" ++ jsOrS uid "guest") = none) :
    fetchLearningModules now c level uid
      = (CVal.modules (generateDynamicModules level uid),
         setCachedData now c
           ("modules_" ++ jsOrS level "all" ++ "_" ++ jsOrS uid "guest")
           (CVal.modules (generateDynamicModules level uid))) := by
  simp only [fetchLearningModules]
  rw [hmiss]

/-- C6 (corrected, counterexample): a modules request with `level` present
but equal to the empty string — a level value that is neither absent, nor
`'all'`, nor a recognized difficulty — returns all 5 seeded modules, not
the empty list the claim requires for unrecognized values: the handler's
`searchParams.get('level') || 'all'` treats the empty string as absent. -/
theorem modules_empty_level_cex :
    (handleGET 0 "d" emptyCache ⟨some "modules", none, none, some ""⟩).1
      = GResponse.modulesR (CVal.modules baseModules) 5 categoriesList false
    ∧ baseModules.length = 5
    ∧ baseModules ≠ [] := by decide

/-- C6 (corrected, amended): on a modules request whose cache key is not
freshly cached, with `eff` the effective level (`level` query value, with
absent and empty defaulted to `'all'`): `eff = 'all'` yields exactly the 5
seeded modules (and `totalModules` equal to their number), a recognized
difficulty yields exactly the seeded modules of that difficulty, and any
other (necessarily non-empty) value yields the empty list, with no
error. -/
theorem modules_request_spec (now : Int) (today : String) (c : Cache)
    (lvlParam uidParam : Option String)
    (hmiss : getCachedData now c
      ("modules_" ++ jsOrS lvlParam "all" ++ "_" ++ jsOrS uidParam "guest")
      = none) :
    (handleGET now today c ⟨some "modules", none, uidParam, lvlParam⟩).1
      = GResponse.modulesR
          (CVal.modules (claimedModules (jsOrS lvlParam "all")))
          (claimedModules (jsOrS lvlParam "all")).length
          categoriesList false := by
  have heff : jsOrS lvlParam "all" ≠ "" := jsOrS_ne_empty _ _ (by decide)
  have huid : jsOrS uidParam "guest" ≠ "" := jsOrS_ne_empty _ _ (by decide)
  have hmiss2 : getCachedData now c
      ("modules_" ++ jsOrS (some (jsOrS lvlParam "all")) "all" ++ "_"
        ++ jsOrS (some (jsOrS uidParam "guest")) "guest") = none := by
    rw [jsOrS_some_of_ne _ _ heff, jsOrS_some_of_ne _ _ huid]; exact hmiss
  have hf : fetchLearningModules now c (some (jsOrS lvlParam "all"))
      (some (jsOrS uidParam "guest"))
      = (CVal.modules (claimedModules (jsOrS lvlParam "all")),
         setCachedData now c
           ("modules_" ++ jsOrS (some (jsOrS lvlParam "all")) "all" ++ "_"
             ++ jsOrS (some (jsOrS uidParam "guest")) "guest")
           (CVal.modules (claimedModules (jsOrS lvlParam "all")))) := by
    rw [fetchLearningModules_miss _ _ _ _ hmiss2,
      generateDynamicModules_eq_claimed _ heff]
  simp only [handleGET, handleGETCore]
  rw [hf]
  simp [CVal.lengthJS]

/-- Witness for `modules_request_spec` with the `beginner` filter on the
empty cache. -/
theorem modules_request_spec_witness :
    (getCachedData 0 emptyCache
      ("modules_" ++ jsOrS (some "beginner") "all" ++ "_" ++ jsOrS none "guest")
      = none)
    ∧ (handleGET 0 "d" emptyCache ⟨some "modules", none, none, some "beginner"⟩).1
        = GResponse.modulesR
            (CVal.modules (claimedModules (jsOrS (some "beginner") "all")))
            (claimedModules (jsOrS (some "beginner") "all")).length
            categoriesList false :=
  ⟨by decide, modules_request_spec 0 "d" emptyCache (some "beginner") none (by decide)⟩

/-- C1 (corrected, counterexample): at the random draw giving score exactly
70 (`Math.floor(Math.random()*40) = 10`), the response reports
`passed = true` (the code tests `mockScore >= 70`) but `xpEarned = 100`
(the award tests `mockScore > 70`), while the claim requires `xpEarned =
200` whenever `passed` holds: `100 ≠ 200`. -/
theorem submit_assessment_score70_cex :
    (handlePOST 0 "2026-01-01" 10 emptyCache (some "u")
      ⟨some "submit-assessment", none, some "a1", true⟩).1
      = PResponse.assessmentR 70 100 true 617
    ∧ 70 ≥ 70
    ∧ (100 : Nat) ≠ 200 := by decide

/-- C1 (corrected, amended): for every submit-assessment request with
truthy `assessmentId` and `answers` and any possible random draw
`r = Math.floor(Math.random()*40) < 40`, the returned score `r + 60` lies
in `[60,100]` (in fact `[60,99]`), `passed` equals `score ≥ 70`, and
`xpEarned` is `200` when the score strictly exceeds `70` and `100`
otherwise — so at score exactly `70` the response is passed with only
`100` XP; `newTotalXP` is the freshly re-derived `currentXP` of the
user. -/
theorem submit_assessment_spec (now : Int) (today : String) (r : Nat)
    (c : Cache) (u aid : String)
    (hr : r < 40) (hu : u ≠ "") (ha : aid ≠ "") :
    (handlePOST now today r c (some u)
        ⟨some "submit-assessment", none, some aid, true⟩).1
      = PResponse.assessmentR (r + 60) (if r + 60 > 70 then 200 else 100)
          (decide (r + 60 ≥ 70))
          ((getUserProgressFromDatabase u today).currentXP)
    ∧ 60 ≤ r + 60
    ∧ r + 60 ≤ 100 := by
  refine ⟨?_, by omega, by omega⟩
  simp only [handlePOST, handlePOSTCore, jsOrS_some_of_ne _ _ hu, awardXP,
    fetchUserProgress, getCachedData, deleteCached, jsTruthy]
  simp [ha, CVal.progressOf]

/-- Witness for `submit_assessment_spec` at the draw `r = 0`. -/
theorem submit_assessment_spec_witness :
    (0 : Nat) < 40 ∧ "u" ≠ "" ∧ "a1" ≠ ""
    ∧ ((handlePOST 0 "2026-01-01" 0 emptyCache (some "u")
          ⟨some "submit-assessment", none, some "a1", true⟩).1
        = PResponse.assessmentR (0 + 60) (if 0 + 60 > 70 then 200 else 100)
            (decide (0 + 60 ≥ 70))
            ((getUserProgressFromDatabase "u" "2026-01-01").currentXP)
      ∧ 60 ≤ 0 + 60
      ∧ 0 + 60 ≤ 100) :=
  ⟨by decide, by decide, by decide,
    submit_assessment_spec 0 "2026-01-01" 0 emptyCache "u" "a1"
      (by decide) (by decide) (by decide)⟩

/-- The GET dispatch falls to the default branch for any unsupported
action. -/
theorem handleGETCore_default (now : Int) (today : String) (c : Cache)
    (u : String) (action moduleId lvl : Option String)
    (h1 : action ≠ some "modules") (h2 : action ≠ some "progress")
    (h3 : action ≠ some "module-content") (h4 : action ≠ some "assessments")
    (h5 : action ≠ some "leaderboard") :
    handleGETCore now today c u action moduleId lvl
      = (GResponse.errorR 400 "Invalid action", c) := by
  unfold handleGETCore
  split <;> simp_all

/-- The POST dispatch falls to the default branch for any unsupported
action. -/
theorem handlePOSTCore_default (now : Int) (today : String) (r : Nat)
    (c : Cache) (u : String) (body : PostBody)
    (h1 : body.action ≠ some "start-module")
    (h2 : body.action ≠ some "complete-module")
    (h3 : body.action ≠ some "submit-assessment") :
    handlePOSTCore now today r c u body
      = (PResponse.errorR 400 "Invalid POST action", c) := by
  unfold handlePOSTCore
  split <;> simp_all

/-- C7 (corrected, counterexample): a POST whose action is unsupported
receives the error string `'Invalid POST action'`, not the claimed
`'Invalid action'`. -/
theorem invalid_post_action_cex :
    (handlePOST 0 "d" 0 emptyCache none
      ⟨some "bogus-action", none, none, false⟩).1
      = PResponse.errorR 400 "Invalid POST action"
    ∧ "Invalid POST action" ≠ "Invalid action" := by
  exact ⟨rfl, by decide⟩

/-- C7 (corrected, amended): for every request whose action is not one of
the supported actions, the handler returns HTTP 400 — with error exactly
`'Invalid action'` for GET, and exactly `'Invalid POST action'` for
POST. -/
theorem invalid_action_spec (now : Int) (today : String) (r : Nat)
    (c : Cache) (p : GetParams) (body : PostBody)
    (hg : p.action ∉ ["modules", "progress", "module-content",
        "assessments", "leaderboard"].map some)
    (hp : body.action ∉ ["start-module", "complete-module",
        "submit-assessment"].map some) :
    (handleGET now today c p).1 = GResponse.errorR 400 "Invalid action"
    ∧ (handlePOST now today r c p.userId body).1
        = PResponse.errorR 400 "Invalid POST action" := by
  simp only [List.map_cons, List.map_nil, List.mem_cons,
    List.not_mem_nil, or_false, not_or] at hg hp
  obtain ⟨hg1, hg2, hg3, hg4, hg5⟩ := hg
  obtain ⟨hp1, hp2, hp3⟩ := hp
  constructor
  · rw [handleGET, handleGETCore_default _ _ _ _ _ _ _ hg1 hg2 hg3 hg4 hg5]
  · rw [handlePOST, handlePOSTCore_default _ _ _ _ _ _ hp1 hp2 hp3]

/-- Witness for `invalid_action_spec` at a concrete unsupported action. -/
theorem invalid_action_spec_witness :
    ((some "refresh" : Option String) ∉ ["modules", "progress",
        "module-content", "assessments", "leaderboard"].map some)
    ∧ ((some "reset" : Option String) ∉ ["start-module", "complete-module",
        "submit-assessment"].map some)
    ∧ ((handleGET 0 "d" emptyCache ⟨some "refresh", none, none, none⟩).1
          = GResponse.errorR 400 "Invalid action"
      ∧ (handlePOST 0 "d" 0 emptyCache none
            ⟨some "reset", none, none, false⟩).1
          = PResponse.errorR 400 "Invalid POST action") :=
  ⟨by decide, by decide,
    invalid_action_spec 0 "d" 0 emptyCache ⟨some "refresh", none, none, none⟩
      ⟨some "reset", none, none, false⟩ (by decide) (by decide)⟩

/-- C8 (confirmed): for every userId `u` and truthy (non-empty) moduleId, a
`start-module` POST returns success with `xpAwarded = 50`; afterwards the
cache holds no entry under `user_progress_<u>` (so any later progress read
at any time misses and recomputes), and every key other than the two
invalidated keys `user_progress_<u>` and `modules_all_<u>` — in
particular the progress entry of every other user `v ≠ u` — is exactly as
before. -/
theorem start_module_spec (now now2 : Int) (today : String) (r : Nat)
    (c : Cache) (u : String) (mid : Option String) (k v : String)
    (hu : u ≠ "") (hm : jsTruthy mid = true)
    (hk1 : k ≠ "user_progress_" ++ u) (hk2 : k ≠ "modules_all_" ++ u)
    (hv : v ≠ u) :
    ((handlePOST now today r c (some u)
        ⟨some "start-module", mid, none, false⟩).1
      = PResponse.startedR "Module started successfully" 50)
    ∧ ((handlePOST now today r c (some u)
        ⟨some "start-module", mid, none, false⟩).2 ("user_progress_" ++ u)
      = none)
    ∧ (getCachedData now2 (handlePOST now today r c (some u)
        ⟨some "start-module", mid, none, false⟩).2 ("user_progress_" ++ u)
      = none)
    ∧ ((handlePOST now today r c (some u)
        ⟨some "start-module", mid, none, false⟩).2 k = c k)
    ∧ ((handlePOST now today r c (some u)
        ⟨some "start-module", mid, none, false⟩).2 ("user_progress_" ++ v)
      = c ("user_progress_" ++ v)) := by
  have hout : handlePOST now today r c (some u)
      ⟨some "start-module", mid, none, false⟩
      = (PResponse.startedR "Module started successfully" 50,
         deleteCached (deleteCached (deleteCached c ("user_progress_" ++ u))
           ("modules_all_" ++ u)) ("user_progress_" ++ u)) := by
    simp [handlePOST, handlePOSTCore, updateModuleProgress, awardXP,
      jsOrS_some_of_ne _ _ hu, hm]
  rw [hout]
  refine ⟨rfl, ?_, ?_, ?_, ?_⟩
  · simp [deleteCached]
  · simp [getCachedData, deleteCached]
  · simp [deleteCached, hk1, hk2]
  · simp [deleteCached, progressKey_inj v u hv, progressKey_ne_modulesKey v u]

/-- Witness for `start_module_spec` for the user `alice`, a frame key of
the user `bob`, and the seeded module `nasa-data-intro`. -/
theorem start_module_spec_witness :
    ("alice" ≠ "" ∧ jsTruthy (some "nasa-data-intro") = true
      ∧ "assessments_bob" ≠ "user_progress_" ++ "alice"
      ∧ "assessments_bob" ≠ "modules_all_" ++ "alice"
      ∧ "bob" ≠ "alice")
    ∧ (((handlePOST 0 "d" 0 emptyCache (some "alice")
          ⟨some "start-module", some "nasa-data-intro", none, false⟩).1
        = PResponse.startedR "Module started successfully" 50)
      ∧ ((handlePOST 0 "d" 0 emptyCache (some "alice")
          ⟨some "start-module", some "nasa-data-intro", none, false⟩).2
            ("user_progress_" ++ "alice") = none)
      ∧ (getCachedData 99 (handlePOST 0 "d" 0 emptyCache (some "alice")
          ⟨some "start-module", some "nasa-data-intro", none, false⟩).2
            ("user_progress_" ++ "alice") = none)
      ∧ ((handlePOST 0 "d" 0 emptyCache (some "alice")
          ⟨some "start-module", some "nasa-data-intro", none, false⟩).2
            "assessments_bob" = emptyCache "assessments_bob")
      ∧ ((handlePOST 0 "d" 0 emptyCache (some "alice")
          ⟨some "start-module", some "nasa-data-intro", none, false⟩).2
            ("user_progress_" ++ "bob")
          = emptyCache ("user_progress_" ++ "bob"))) :=
  ⟨⟨by decide, by decide, by decide, by decide, by decide⟩,
    start_module_spec 0 99 "d" 0 emptyCache "alice" (some "nasa-data-intro")
      "assessments_bob" "bob" (by decide) (by decide) (by decide) (by decide)
      (by decide)⟩

/-- C9 (confirmed): every successful `modules` or `progress` GET response
reports `cache.cached = false`, for every cache state — including states
in which the result was actually served from the cache. -/
theorem cached_flag_spec (now : Int) (today : String) (c : Cache)
    (p : GetParams)
    (h : p.action = some "modules" ∨ p.action = some "progress") :
    ((handleGET now today c p).1).cachedFlag = some false := by
  unfold handleGET handleGETCore
  rcases h with h | h <;> rw [h]
  · rcases hf : fetchLearningModules now c (some (jsOrS p.level "all"))
        (some (jsOrS p.userId "guest")) with ⟨mv, c1⟩
    simp [hf, GResponse.cachedFlag]
  · rcases hf : fetchUserProgress now c (jsOrS p.userId "guest") today
        with ⟨pv, c1⟩
    simp [hf, GResponse.cachedFlag]

/-- Witness for `cached_flag_spec` on a cache that actually hits: the
progress entry for `guest` is fresh in the cache, the response is served
from it, and the response still reports `cached = false`. -/
theorem cached_flag_spec_witness :
    ((some "progress" : Option String) = some "modules"
      ∨ (some "progress" : Option String) = some "progress")
    ∧ ((handleGET 0 "d"
        (setCachedData 0 emptyCache "user_progress_guest"
          (CVal.progress (getUserProgressFromDatabase "guest" "d")))
        ⟨some "progress", none, none, none⟩).1).cachedFlag = some false :=
  ⟨Or.inr rfl,
    cached_flag_spec 0 "d"
      (setCachedData 0 emptyCache "user_progress_guest"
        (CVal.progress (getUserProgressFromDatabase "guest" "d")))
      ⟨some "progress", none, none, none⟩ (Or.inr rfl)⟩

/-- C10 (confirmed): a request whose `userId` query parameter is absent or
the empty string produces exactly the same response and the same cache
effects as the identical request with `userId = 'guest'` — both handlers
normalize via `searchParams.get('userId') || 'guest'` before any use. -/
theorem guest_default_spec (now : Int) (today : String) (r : Nat)
    (c : Cache) (action moduleId level : Option String) (body : PostBody)
    (uidRaw : Option String) (h : uidRaw = none ∨ uidRaw = some "") :
    handleGET now today c ⟨action, moduleId, uidRaw, level⟩
        = handleGET now today c ⟨action, moduleId, some "guest", level⟩
    ∧ handlePOST now today r c uidRaw body
        = handlePOST now today r c (some "guest") body := by
  rcases h with h | h <;> subst h <;> exact ⟨rfl, rfl⟩

/-- Witness for `guest_default_spec` at an absent userId. -/
theorem guest_default_spec_witness :
    ((none : Option String) = none ∨ (none : Option String) = some "")
    ∧ (handleGET 0 "d" emptyCache ⟨some "progress", none, none, none⟩
          = handleGET 0 "d" emptyCache ⟨some "progress", none, some "guest", none⟩
      ∧ handlePOST 0 "d" 0 emptyCache none
            ⟨some "start-module", some "m1", none, false⟩
          = handlePOST 0 "d" 0 emptyCache (some "guest")
            ⟨some "start-module", some "m1", none, false⟩) :=
  ⟨Or.inl rfl,
    guest_default_spec 0 "d" 0 emptyCache (some "progress") none none
      ⟨some "start-module", some "m1", none, false⟩ none (Or.inl rfl)⟩
